import Mathlib

/-!
Verification of the task-manager request-to-storage layer
(`app/models.py`, `app/crud.py`, `app/main.py`).

The repository code is async Python over aiomysql with autocommit; we embed
it shallowly: the datastore is an explicit `DB` state (a list of rows plus
the id counter and the current timestamp), each repository operation is a
pure function from the state to a new state and a result, and a raised
storage exception is modelled by a boolean fault flag per statement (the
`except` branches of `crud.py` decide what a fault returns).
-/

namespace TaskManager

/-- The three-value status enumeration (`TaskStatus` in `models.py`). -/
inductive TaskStatus where
  | pending
  | in_progress
  | completed
deriving DecidableEq, Repr

/-- A stored task row / the `Task` response model of `models.py`.
Dates and timestamps are abstracted to naturals. -/
structure Task where
  task_id : Nat
  title : String
  description : Option String
  status : TaskStatus
  due_date : Option Nat
  created_at : Nat
  updated_at : Nat
deriving DecidableEq, Repr

/-- The creation payload (`TaskCreate` in `models.py`). -/
structure TaskCreate where
  title : String
  description : Option String
  status : TaskStatus
  due_date : Option Nat
deriving DecidableEq, Repr

/-- Pydantic's supplied-versus-unset distinction for one update field:
`unset` is a field never mentioned in the request body, `supplied v` a field
present in the body with value `v` (which may itself be an explicit null). -/
inductive Fld (α : Type) where
  | unset
  | supplied (v : α)
deriving DecidableEq, Repr

/-- The update payload (`TaskUpdate` in `models.py`): every field optional,
and for each field an explicit null is distinguishable from omission. -/
structure TaskUpdate where
  title : Fld (Option String)
  description : Fld (Option String)
  status : Fld (Option TaskStatus)
  due_date : Fld (Option Nat)
deriving DecidableEq, Repr

/-- Pydantic validation of a creation payload: `title` carries
`min_length=1, max_length=255`; the other fields are constrained by their
types alone. -/
def TaskCreate.valid (p : TaskCreate) : Bool :=
  decide (1 ≤ p.title.length) && decide (p.title.length ≤ 255)

/-- Pydantic validation of an update payload: the 1–255 length constraint on
`title` applies only when a string is supplied; an explicit null passes. -/
def TaskUpdate.valid (u : TaskUpdate) : Bool :=
  match u.title with
  | Fld.supplied (some s) => decide (1 ≤ s.length) && decide (s.length ≤ 255)
  | _ => true

/-- A cell of the `model_dump(exclude_unset=True)` dictionary: a column value
as it appears in the dynamically built UPDATE statement. -/
inductive ColVal where
  | nul
  | str (s : String)
  | stat (st : TaskStatus)
  | date (d : Nat)
deriving DecidableEq, Repr

def optStrVal : Option String → ColVal
  | none => ColVal.nul
  | some s => ColVal.str s

def optStatVal : Option TaskStatus → ColVal
  | none => ColVal.nul
  | some st => ColVal.stat st

def optDateVal : Option Nat → ColVal
  | none => ColVal.nul
  | some d => ColVal.date d

/-- The dictionary `task_update.model_dump(exclude_unset=True)` in `crud.update_task`:
the key/value pairs of exactly the supplied fields, in field declaration
order. An explicitly supplied null is kept, with value `ColVal.nul`. -/
def TaskUpdate.update_data (u : TaskUpdate) : List (String × ColVal) :=
  (match u.title with
    | Fld.unset => []
    | Fld.supplied v => [("title", optStrVal v)]) ++
  (match u.description with
    | Fld.unset => []
    | Fld.supplied v => [("description", optStrVal v)]) ++
  (match u.status with
    | Fld.unset => []
    | Fld.supplied v => [("status", optStatVal v)]) ++
  (match u.due_date with
    | Fld.unset => []
    | Fld.supplied v => [("due_date", optDateVal v)])

/-- The datastore state: the `tasks` table as a list of rows, the
auto-increment counter, and the clock the server stamps timestamps with. -/
structure DB where
  rows : List Task
  next_id : Nat
  now : Nat
deriving DecidableEq, Repr

/-- The query `SELECT * FROM tasks WHERE task_id = %s` (first matching row). -/
def DB.find (db : DB) (id : Nat) : Option Task :=
  db.rows.find? (fun t => t.task_id == id)

/-- Embeds `crud.get_task`: returns the matching row, `none` when no row matches,
and — via the `except` branch — also `none` when the statement raises. -/
def get_task (fault : Bool) (db : DB) (id : Nat) : Option Task :=
  if fault then none else db.find id

/-- Modelled from the spec: the comparison `ORDER BY created_at DESC` uses —
most recently created first. The schema file is not part of the sources, so
the ordering semantics follow the spec's words. -/
def createdDesc (a b : Task) : Prop :=
  b.created_at ≤ a.created_at

instance : DecidableRel createdDesc :=
  fun a b => Nat.decLe b.created_at a.created_at

instance : IsTotal Task createdDesc :=
  ⟨fun a b => Nat.le_total b.created_at a.created_at⟩

instance : IsTrans Task createdDesc :=
  ⟨fun _ _ _ h1 h2 => Nat.le_trans h2 h1⟩

/-- The table ordered by `created_at` descending (deterministically, as the
shallow model of the SQL sort). -/
def sortByCreatedDesc (l : List Task) : List Task :=
  List.insertionSort createdDesc l

/-- Embeds `crud.get_tasks`: `SELECT * FROM tasks ORDER BY created_at DESC LIMIT
%s OFFSET %s`; the `except` branch returns the empty list on a fault. -/
def get_tasks (fault : Bool) (db : DB) (skip limit : Nat) : List Task :=
  if fault then [] else ((sortByCreatedDesc db.rows).drop skip).take limit

/-- Embeds `crud.create_task`: INSERT the four mutable fields (storage assigns
`task_id` and both timestamps — autocommit, so the insert is durable at
once), then re-read the new row with `get_task`. `ifault` is a fault of the
INSERT statement, `rfault` a fault of the follow-up read. -/
def create_task (ifault rfault : Bool) (db : DB) (p : TaskCreate) :
    DB × Option Task :=
  if ifault then (db, none)
  else
    let newTask : Task :=
      { task_id := db.next_id, title := p.title,
        description := p.description, status := p.status,
        due_date := p.due_date, created_at := db.now, updated_at := db.now }
    let db' : DB := { db with rows := db.rows ++ [newTask],
                              next_id := db.next_id + 1 }
    (db', get_task rfault db' db.next_id)

/-- Modelled from the spec: whether the datastore accepts the dynamically
built UPDATE statement. The schema file is not part of the sources; per the
spec's invariants `title` is never empty or null and `status` always one of
the three values, so a supplied explicit null for either is rejected by the
statement (which then raises, landing in the `except` branch). -/
def updOk (u : TaskUpdate) : Bool :=
  !(u.title == Fld.supplied (none : Option String)) &&
  !(u.status == Fld.supplied (none : Option TaskStatus))

/-- Modelled from the spec: the effect of the accepted UPDATE statement on
one matching row — each supplied field is set to its supplied value and the
server-managed `updated_at` is refreshed (the schema file carrying the
`ON UPDATE` clause is not part of the sources). -/
def setFields (now : Nat) (u : TaskUpdate) (t : Task) : Task :=
  { t with
    title := match u.title with
      | Fld.supplied (some s) => s
      | _ => t.title,
    description := match u.description with
      | Fld.supplied v => v
      | _ => t.description,
    status := match u.status with
      | Fld.supplied (some st) => st
      | _ => t.status,
    due_date := match u.due_date with
      | Fld.supplied v => v
      | _ => t.due_date,
    updated_at := now }

/-- Embeds `crud.update_task`: fetch the existing row first (`none` → not found);
an empty `update_data` returns the existing row without a write; otherwise
execute the dynamically built UPDATE (a statement fault or a rejected
statement raises → `none`), re-fetching on `rowcount == 0`, and finally
re-read the post-update row. `rf` is a fault of the initial read, `wf` of
the UPDATE statement, `r2f` of the final re-read. -/
def update_task (rf wf r2f : Bool) (db : DB) (id : Nat) (u : TaskUpdate) :
    DB × Option Task :=
  match get_task rf db id with
  | none => (db, none)
  | some existing =>
    if u.update_data.isEmpty then (db, some existing)
    else if wf || !(updOk u) then (db, none)
    else
      let affected := (db.rows.filter (fun r => r.task_id == id)).length
      if affected = 0 then (db, get_task r2f db id)
      else
        let rows' := db.rows.map
          (fun r => if r.task_id == id then setFields db.now u r else r)
        let db' : DB := { db with rows := rows' }
        (db', get_task r2f db' id)

/-- Embeds `crud.delete_task`: `DELETE FROM tasks WHERE task_id = %s`; returns
`true` iff `rowcount > 0`; the `except` branch returns `false` on a fault. -/
def delete_task (fault : Bool) (db : DB) (id : Nat) : DB × Bool :=
  if fault then (db, false)
  else
    let affected := (db.rows.filter (fun r => r.task_id == id)).length
    let db' : DB := { db with rows := db.rows.filter (fun r => !(r.task_id == id)) }
    if affected > 0 then (db', true) else (db', false)

/-- Protocol-level outcomes produced by the handlers in `main.py`. -/
inductive Response where
  | ok200 (t : Task)
  | okList (ts : List Task)
  | created201 (t : Task)
  | noContent204
  | notFound404
  | unprocessable422
  | serverErr500
deriving DecidableEq, Repr

/-- Embeds `main.create_new_task`: FastAPI validates the payload before the handler
body runs (an invalid payload is a 422 and never reaches the repository);
the handler then calls `crud.create_task` and maps `None` to a 500. -/
def create_new_task (ifault rfault : Bool) (db : DB) (p : TaskCreate) :
    DB × Response :=
  if !(p.valid) then (db, Response.unprocessable422)
  else
    match create_task ifault rfault db p with
    | (db', some t) => (db', Response.created201 t)
    | (db', none) => (db', Response.serverErr500)

/-- Embeds `main.update_existing_task`: call `crud.update_task`; on `None`,
re-check existence with `crud.get_task` (fault flag `cf`) and map absence to
404, presence to 500. -/
def update_existing_task (rf wf r2f cf : Bool) (db : DB) (id : Nat)
    (u : TaskUpdate) : DB × Response :=
  match update_task rf wf r2f db id u with
  | (db', some t) => (db', Response.ok200 t)
  | (db', none) =>
    match get_task cf db' id with
    | none => (db', Response.notFound404)
    | some _ => (db', Response.serverErr500)

/-- Embeds `main.delete_existing_task`: 204 on `True`, 404 on `False`. -/
def delete_existing_task (fault : Bool) (db : DB) (id : Nat) :
    DB × Response :=
  match delete_task fault db id with
  | (db', true) => (db', Response.noContent204)
  | (db', false) => (db', Response.notFound404)

/-! ### Sample data used by concrete instantiations -/

def t1 : Task :=
  { task_id := 1, title := "a", description := none,
    status := TaskStatus.pending, due_date := none,
    created_at := 10, updated_at := 10 }

def t2 : Task :=
  { task_id := 2, title := "b", description := some ("d"),
    status := TaskStatus.completed, due_date := some 3,
    created_at := 20, updated_at := 20 }

def t3 : Task :=
  { task_id := 3, title := "c", description := none,
    status := TaskStatus.pending, due_date := none,
    created_at := 15, updated_at := 15 }

def t4 : Task :=
  { task_id := 4, title := "e", description := none,
    status := TaskStatus.in_progress, due_date := none,
    created_at := 25, updated_at := 25 }

def dbA : DB := { rows := [t1, t2], next_id := 3, now := 30 }

def db4 : DB := { rows := [t4, t2, t3, t1], next_id := 5, now := 40 }

def uStat : TaskUpdate :=
  { title := Fld.unset, description := Fld.unset,
    status := Fld.supplied (some TaskStatus.completed), due_date := Fld.unset }

def uEmpty : TaskUpdate :=
  { title := Fld.unset, description := Fld.unset,
    status := Fld.unset, due_date := Fld.unset }

def uNullTitle : TaskUpdate :=
  { title := Fld.supplied none, description := Fld.unset,
    status := Fld.unset, due_date := Fld.unset }

def pEmptyTitle : TaskCreate :=
  { title := "", description := none,
    status := TaskStatus.pending, due_date := none }

def pShortTitle : TaskCreate :=
  { title := "a", description := none,
    status := TaskStatus.pending, due_date := none }

/-! ### Helper lemmas -/

theorem find?_taskId_eq {l : List Task} {id : Nat} {a : Task}
    (h : l.find? (fun t => t.task_id == id) = some a) : a.task_id = id := by
  have := List.find?_some h
  simpa using this

theorem filter_taskId_length_ne_zero {l : List Task} {id : Nat} {a : Task}
    (h : l.find? (fun t => t.task_id == id) = some a) :
    (l.filter (fun t => t.task_id == id)).length ≠ 0 := by
  have hp := List.find?_some h
  have hmem : a ∈ l.filter (fun t => t.task_id == id) :=
    List.mem_filter.mpr ⟨List.mem_of_find?_eq_some h, hp⟩
  intro h0
  rw [List.length_eq_zero] at h0
  rw [h0] at hmem
  exact absurd hmem (List.not_mem_nil a)

theorem find?_map_setFields (now : Nat) (u : TaskUpdate) (id : Nat) :
    ∀ (l : List Task) (a : Task),
      l.find? (fun t => t.task_id == id) = some a →
      (l.map (fun r => if r.task_id == id then setFields now u r else r)).find?
          (fun t => t.task_id == id) = some (setFields now u a) := by
  intro l
  induction l with
  | nil => intro a h; simp at h
  | cons b l ih =>
    intro a h
    by_cases hb : b.task_id = id
    · rw [List.find?_cons_of_pos _ (by simpa using hb)] at h
      injection h with h
      subst h
      rw [List.map_cons, if_pos (by simpa using hb)]
      exact List.find?_cons_of_pos _ (by simpa [setFields] using hb)
    · rw [List.find?_cons_of_neg _ (by simpa using hb)] at h
      rw [List.map_cons, if_neg (by simpa using hb)]
      rw [List.find?_cons_of_neg _ (by simpa using hb)]
      exact ih a h

theorem mem_map_setFields_of_ne (now : Nat) (u : TaskUpdate) (id : Nat)
    {l : List Task} {r : Task} (hr : r ∈ l) (hne : r.task_id ≠ id) :
    r ∈ l.map (fun x => if x.task_id == id then setFields now u x else x) := by
  refine List.mem_map.mpr ⟨r, hr, ?_⟩
  simp [hne]

theorem updOk_eq_true {u : TaskUpdate}
    (ht : u.title ≠ Fld.supplied (none : Option String))
    (hs : u.status ≠ Fld.supplied (none : Option TaskStatus)) :
    updOk u = true := by
  simp only [updOk, Bool.and_eq_true, Bool.not_eq_true', beq_eq_false_iff_ne]
  exact ⟨ht, hs⟩

/-! ### Claims -/

/-- C2: for every existing task, update with a payload supplying zero fields
is a no-op — the datastore state is returned unchanged (no write happens)
and the result is the existing record itself, so `updated_at` is unaltered
and no error is reported. -/
theorem update_empty_payload_noop (db : DB) (id : Nat) (u : TaskUpdate)
    (existing : Task) (hfind : db.find id = some existing)
    (hempty : u.update_data = []) :
    update_task false false false db id u = (db, some existing) := by
  simp [update_task, get_task, hfind, hempty]

/-- Witness for C2 at a concrete database and the all-unset payload. -/
theorem update_empty_payload_noop_instance :
    update_task false false false dbA 1 uEmpty = (dbA, some t1) :=
  update_empty_payload_noop dbA 1 uEmpty t1 rfl rfl

/-- C3: for every task id with no matching stored row, get-one returns
`none` (not found), update returns `none` immediately with the datastore
untouched (no write attempted), and delete reports `false` (zero rows
removed) with the datastore untouched. -/
theorem missing_id_yields_not_found (db : DB) (id : Nat) (u : TaskUpdate)
    (wf r2f : Bool) (h : db.find id = none) :
    get_task false db id = none ∧
    update_task false wf r2f db id u = (db, none) ∧
    delete_task false db id = (db, false) := by
  have hall : ∀ t ∈ db.rows, ¬(t.task_id == id) = true :=
    List.find?_eq_none.mp h
  refine ⟨by simp [get_task, h], by simp [update_task, get_task, h], ?_⟩
  have hfilter : db.rows.filter (fun t => t.task_id == id) = [] :=
    List.filter_eq_nil_iff.mpr hall
  have hkeep : db.rows.filter (fun t => !(t.task_id == id)) = db.rows :=
    List.filter_eq_self.mpr (fun a ha => by simp [hall a ha])
  simp [delete_task, hfilter, hkeep]

/-- Witness for C3 at a concrete database and an id never created. -/
theorem missing_id_yields_not_found_instance :
    get_task false dbA 5 = none ∧
    update_task false false false dbA 5 uStat = (dbA, none) ∧
    delete_task false dbA 5 = (dbA, false) :=
  missing_id_yields_not_found dbA 5 uStat false false rfl

/-- C7: when the storage call raises, get-one returns `none` — exactly the
outcome a not-found lookup produces — and list returns the empty sequence;
the caller cannot tell a storage failure from absence of data. -/
theorem storage_fault_collapses_to_absence (db : DB) (id skip limit : Nat) :
    get_task true db id = none ∧
    get_tasks true db skip limit = [] ∧
    (∀ db0 : DB, db0.find id = none → get_task true db id = get_task false db0 id) := by
  refine ⟨rfl, rfl, fun db0 h0 => ?_⟩
  simp [get_task, h0]

/-- Witness for C7: the faulted read on a populated database is
indistinguishable from the not-found read of an id that was never stored. -/
theorem storage_fault_collapses_to_absence_instance :
    get_task true dbA 1 = none ∧
    get_tasks true dbA 0 100 = [] ∧
    get_task true dbA 5 = get_task false dbA 5 := by
  obtain ⟨h1, h2, _⟩ := storage_fault_collapses_to_absence dbA 1 0 100
  exact ⟨h1, h2, (storage_fault_collapses_to_absence dbA 5 0 100).2.2 dbA rfl⟩

/-- C9: an update payload whose `title` is an explicit null passes pydantic
validation (the 1–255 length constraint applies only to supplied strings),
is counted as a supplied field by `model_dump(exclude_unset=True)` — so the
payload is not treated as empty — and the built update carries the column
`title` with value null. -/
theorem explicit_null_title_is_supplied (u : TaskUpdate)
    (h : u.title = Fld.supplied none) :
    u.valid = true ∧
    u.update_data.lookup ("title") = some ColVal.nul ∧
    u.update_data ≠ [] := by
  refine ⟨by simp [TaskUpdate.valid, h], ?_, ?_⟩
  · simp [TaskUpdate.update_data, h, optStrVal, List.lookup]
  · simp [TaskUpdate.update_data, h]

/-- Witness for C9 at the concrete payload that only nulls the title. -/
theorem explicit_null_title_is_supplied_instance :
    TaskUpdate.valid uNullTitle = true ∧
    uNullTitle.update_data.lookup ("title") = some ColVal.nul ∧
    uNullTitle.update_data ≠ [] :=
  explicit_null_title_is_supplied uNullTitle rfl

/-- C10: an execution of create in which the INSERT statement succeeds but
the follow-up re-read faults: create returns the failure outcome `none`,
yet the freshly inserted row is durably present in the datastore (autocommit,
no rollback) and a later healthy read finds it. -/
theorem create_reread_fault_leaves_row_stored :
    (create_task false true { rows := [], next_id := 1, now := 5 }
        { title := "a", description := none,
          status := TaskStatus.pending, due_date := none }).2 = none ∧
    get_task false
        (create_task false true { rows := [], next_id := 1, now := 5 }
          { title := "a", description := none,
            status := TaskStatus.pending, due_date := none }).1 1 =
      some { task_id := 1, title := "a", description := none,
             status := TaskStatus.pending, due_date := none,
             created_at := 5, updated_at := 5 } :=
  ⟨rfl, rfl⟩

/-- C4, counterexample: the claim says a failing storage call makes delete
produce an error distinct from not-found, but the `except` branch of
`crud.delete_task` returns `False` — exactly the zero-rows outcome — and
`main.delete_existing_task` maps it to 404. Concretely, a faulted delete of
the existing task 1 is indistinguishable from deleting the absent task 5. -/
theorem delete_fault_indistinguishable_from_not_found :
    dbA.find 1 = some t1 ∧
    delete_task true dbA 1 = (dbA, false) ∧
    delete_existing_task true dbA 1 = (dbA, Response.notFound404) ∧
    delete_existing_task false dbA 5 = (dbA, Response.notFound404) :=
  ⟨rfl, rfl, rfl, rfl⟩

/-- C4, amended: delete returns whether a row was removed — success exactly
when the id was present and the statement did not fault (handler: 204) —
and zero rows removed yields not-found (404), never an error;  a failing
storage call also yields `False` and hence the same 404 outcome, not a
distinct error. -/
theorem delete_reports_row_removal (fault : Bool) (db : DB) (id : Nat) :
    (delete_task fault db id).2 = (!fault && (db.find id).isSome) ∧
    delete_existing_task fault db id =
      ((delete_task fault db id).1,
        if (delete_task fault db id).2 then Response.noContent204
        else Response.notFound404) := by
  constructor
  · cases fault with
    | true => simp [delete_task]
    | false =>
      simp only [Bool.not_false, Bool.true_and]
      rcases hfind : db.find id with _ | x
      · have hall := List.find?_eq_none.mp hfind
        have hfilter : db.rows.filter (fun t => t.task_id == id) = [] :=
          List.filter_eq_nil_iff.mpr hall
        simp [delete_task, hfilter]
      · have hp := List.find?_some hfind
        have hm := List.mem_of_find?_eq_some hfind
        have hmem : x ∈ db.rows.filter (fun t => t.task_id == id) :=
          List.mem_filter.mpr ⟨hm, hp⟩
        have hpos : 0 < (db.rows.filter (fun t => t.task_id == id)).length :=
          List.length_pos.mpr (List.ne_nil_of_mem hmem)
        simp [delete_task, hpos]
  · rcases hd : delete_task fault db id with ⟨db2, b⟩
    cases b with
    | true => simp [delete_existing_task, hd]
    | false => simp [delete_existing_task, hd]

/-- C6: a creation payload whose title has length 0 or length 256 fails
validation and the handler answers 422 with the datastore untouched — no
storage call is attempted — while a title of length 1 or length 255 passes
validation. -/
theorem title_length_validation_boundary (db : DB) (ifault rfault : Bool)
    (p : TaskCreate) :
    (p.title.length = 0 ∨ p.title.length = 256 →
      p.valid = false ∧
      create_new_task ifault rfault db p = (db, Response.unprocessable422)) ∧
    (p.title.length = 1 ∨ p.title.length = 255 → p.valid = true) := by
  constructor
  · intro h
    have hv : p.valid = false := by
      rcases h with h | h <;> simp [TaskCreate.valid, h]
    exact ⟨hv, by simp [create_new_task, hv]⟩
  · intro h
    rcases h with h | h <;> simp [TaskCreate.valid, h]

/-- Witness for C6: the empty title is rejected without touching the
datastore and a one-character title is accepted. -/
theorem title_length_validation_boundary_instance :
    TaskCreate.valid pEmptyTitle = false ∧
    create_new_task false false dbA pEmptyTitle = (dbA, Response.unprocessable422) ∧
    TaskCreate.valid pShortTitle = true := by
  obtain ⟨h1, h2⟩ :=
    (title_length_validation_boundary dbA false false pEmptyTitle).1 (Or.inl rfl)
  exact ⟨h1, h2,
    (title_length_validation_boundary dbA false false pShortTitle).2 (Or.inl rfl)⟩

/-- C8: for a PUT with a valid payload, the handler answers 200 with the
record whenever the repository update returns a record; when it returns
`None`, the handler re-checks existence and answers 404 if the task is
absent and 500 if it is present (the update failed for another reason). -/
theorem put_handler_status_mapping (db : DB) (id : Nat) (u : TaskUpdate)
    (rf wf r2f : Bool) (_hvalid : u.valid = true) :
    (∀ t, (update_task rf wf r2f db id u).2 = some t →
      update_existing_task rf wf r2f false db id u =
        ((update_task rf wf r2f db id u).1, Response.ok200 t)) ∧
    ((update_task rf wf r2f db id u).2 = none →
      (update_task rf wf r2f db id u).1.find id = none →
      update_existing_task rf wf r2f false db id u =
        ((update_task rf wf r2f db id u).1, Response.notFound404)) ∧
    ((update_task rf wf r2f db id u).2 = none →
      ∀ t0, (update_task rf wf r2f db id u).1.find id = some t0 →
      update_existing_task rf wf r2f false db id u =
        ((update_task rf wf r2f db id u).1, Response.serverErr500)) := by
  rcases hres : update_task rf wf r2f db id u with ⟨db2, res⟩
  cases res with
  | some t =>
    refine ⟨?_, ?_, ?_⟩
    · intro t0 ht0
      simp only [hres] at ht0 ⊢
      injection ht0 with ht0
      subst ht0
      simp [update_existing_task, hres]
    · intro hnone
      simp [hres] at hnone
    · intro hnone
      simp [hres] at hnone
  | none =>
    refine ⟨?_, ?_, ?_⟩
    · intro t0 ht0
      simp [hres] at ht0
    · intro _ hfind
      simp only [hres] at hfind ⊢
      simp [update_existing_task, hres, get_task, hfind]
    · intro _ t0 hfind
      simp only [hres] at hfind ⊢
      simp [update_existing_task, hres, get_task, hfind]

/-- Witness for C8: updating the absent task 5 returns no record and the
handler answers 404. -/
theorem put_handler_status_mapping_instance :
    update_existing_task false false false false dbA 5 uStat =
      ((update_task false false false dbA 5 uStat).1, Response.notFound404) :=
  (put_handler_status_mapping dbA 5 uStat false false false rfl).2.1 rfl rfl

/-- C5: list returns the stored records ordered by `created_at` descending,
skipping `skip` rows and capped at `limit` rows (over the deterministic
model of the SQL sort, which permutes the stored rows); over four stored
records, the consecutive pages `skip=0,limit=2` and `skip=2,limit=2`
together cover every stored record exactly once with no overlap. -/
theorem list_pagination_ordered_and_complete (db : DB) (skip limit : Nat) :
    List.Sorted createdDesc (get_tasks false db skip limit) ∧
    get_tasks false db skip limit =
      ((sortByCreatedDesc db.rows).drop skip).take limit ∧
    (sortByCreatedDesc db.rows).Perm db.rows ∧
    (db.rows.length = 4 →
      (get_tasks false db 0 2 ++ get_tasks false db 2 2).Perm db.rows) := by
  have hsorted : List.Sorted createdDesc (sortByCreatedDesc db.rows) :=
    List.sorted_insertionSort createdDesc db.rows
  have hperm : (sortByCreatedDesc db.rows).Perm db.rows :=
    List.perm_insertionSort createdDesc db.rows
  refine ⟨?_, rfl, hperm, ?_⟩
  · have hsub : List.Sublist
        (((sortByCreatedDesc db.rows).drop skip).take limit)
        (sortByCreatedDesc db.rows) :=
      (List.take_sublist _ _).trans (List.drop_sublist _ _)
    exact List.Pairwise.sublist hsub hsorted
  · intro h4
    have hlen : (sortByCreatedDesc db.rows).length = 4 :=
      hperm.length_eq.trans h4
    have hpages : get_tasks false db 0 2 ++ get_tasks false db 2 2 =
        sortByCreatedDesc db.rows := by
      show ((sortByCreatedDesc db.rows).drop 0).take 2 ++
          ((sortByCreatedDesc db.rows).drop 2).take 2 = sortByCreatedDesc db.rows
      rw [List.drop_zero]
      have hdl : ((sortByCreatedDesc db.rows).drop 2).length = 2 := by
        rw [List.length_drop, hlen]
      rw [List.take_of_length_le (le_of_eq hdl),
        List.take_append_drop]
    rw [hpages]
    exact hperm

/-- Witness for C5: four concrete stored records are covered exactly once by
the two consecutive pages. -/
theorem list_pagination_ordered_and_complete_instance :
    (get_tasks false db4 0 2 ++ get_tasks false db4 2 2).Perm db4.rows :=
  (list_pagination_ordered_and_complete db4 0 2).2.2.2 rfl

/-- C1: updating an existing task with a payload that supplies some fields
(and, per the schema, does not null a non-nullable column) changes exactly
the supplied fields — each supplied field takes its supplied value, each
unsupplied field keeps its prior value — plus the server-managed
`updated_at`; `task_id` and `created_at` are untouched, every other stored
row is untouched, and the returned record is the post-update state re-read
from storage. -/
theorem update_touches_exactly_supplied_fields
    (db : DB) (id : Nat) (u : TaskUpdate) (existing : Task)
    (hfind : db.find id = some existing)
    (hsupplied : u.update_data ≠ [])
    (ht : u.title ≠ Fld.supplied (none : Option String))
    (hs : u.status ≠ Fld.supplied (none : Option TaskStatus)) :
    ∃ db' t', update_task false false false db id u = (db', some t') ∧
      db'.find id = some t' ∧
      t'.task_id = existing.task_id ∧
      t'.created_at = existing.created_at ∧
      t'.updated_at = db.now ∧
      (u.title = Fld.unset → t'.title = existing.title) ∧
      (∀ s, u.title = Fld.supplied (some s) → t'.title = s) ∧
      (u.description = Fld.unset → t'.description = existing.description) ∧
      (∀ v, u.description = Fld.supplied v → t'.description = v) ∧
      (u.status = Fld.unset → t'.status = existing.status) ∧
      (∀ st, u.status = Fld.supplied (some st) → t'.status = st) ∧
      (u.due_date = Fld.unset → t'.due_date = existing.due_date) ∧
      (∀ v, u.due_date = Fld.supplied v → t'.due_date = v) ∧
      (∀ r ∈ db.rows, r.task_id ≠ id → r ∈ db'.rows) := by
  have hempty : u.update_data.isEmpty = false := by
    cases hud : u.update_data with
    | nil => exact absurd hud hsupplied
    | cons a l => rfl
  have hok : updOk u = true := updOk_eq_true ht hs
  have haff : (db.rows.filter (fun r => r.task_id == id)).length ≠ 0 :=
    filter_taskId_length_ne_zero hfind
  have hfind' : (db.rows.map
        (fun r => if r.task_id == id then setFields db.now u r else r)).find?
          (fun t => t.task_id == id) = some (setFields db.now u existing) :=
    find?_map_setFields db.now u id db.rows existing hfind
  refine ⟨⟨db.rows.map
      (fun r => if r.task_id == id then setFields db.now u r else r),
      db.next_id, db.now⟩,
    setFields db.now u existing, ?_, ?_, rfl, rfl, rfl,
    ?_, ?_, ?_, ?_, ?_, ?_, ?_, ?_, ?_⟩
  · simp only [update_task, get_task, if_false, Bool.false_eq_true, ite_false]
    rw [hfind, hempty]
    simp only [Bool.false_eq_true, ite_false, hok, Bool.not_true,
      Bool.or_false, Bool.false_or]
    rw [if_neg haff]
    simp only [DB.find, hfind']
  · exact hfind'
  · intro h; simp [setFields, h]
  · intro s h; simp [setFields, h]
  · intro h; simp [setFields, h]
  · intro v h; simp [setFields, h]
  · intro h; simp [setFields, h]
  · intro st h; simp [setFields, h]
  · intro h; simp [setFields, h]
  · intro v h; simp [setFields, h]
  · intro r hr hne
    exact mem_map_setFields_of_ne db.now u id hr hne

/-- Witness for C1: updating task 1 of the concrete database with a payload
supplying only `status` yields the re-read record with the new status, the
old title and `created_at`, and the refreshed `updated_at`. -/
theorem update_touches_exactly_supplied_fields_instance :
    ∃ db' t', update_task false false false dbA 1 uStat = (db', some t') ∧
      db'.find 1 = some t' ∧
      t'.updated_at = dbA.now ∧
      t'.title = t1.title ∧
      t'.status = TaskStatus.completed ∧
      t'.created_at = t1.created_at := by
  obtain ⟨db', t', h1, h2, _, h4, h5, h6, _, _, _, _, h11, _, _, _⟩ :=
    update_touches_exactly_supplied_fields dbA 1 uStat t1 rfl
      (by decide) (by decide) (by decide)
  exact ⟨db', t', h1, h2, h5, h6 rfl, h11 TaskStatus.completed rfl, h4⟩

end TaskManager
